import Mathlib

/-!
Verification of the Semantic Information Theory (SIT) evaluation engine of the
`semiosis` repository: a shallow embedding of `semiosis/sit/engine.py` and
`semiosis/sit/math_utils.py`, together with theorems settling the specified
behaviour of trust/budget updates, the viability function, the semantic
threshold search and the token-probability utilities.

Modelling conventions:
- Python floats are embedded as exact rationals (`ℚ`); none of the verified
  claims depends on binary floating-point rounding.
- Transcendental operations (`np.exp`, `np.log2`) and Python's opaque `hash`
  are passed in as explicit function parameters.
- `Dict[str, float]` values are embedded as association lists with
  `List.lookup`; `Dict[str, Any]` payloads that the engine never reads
  (`parameters`, `details`, `metadata`) are embedded as opaque string data.
- Python attribute access on the `EvaluationResult` dataclass is embedded
  explicitly by `EvaluationResult.getattr`, so that the `AttributeError`
  raised by `evaluation_result.correct` (engine.py line 146) is visible as an
  `Except.error` result.
- Methods of `SemioticEvaluator` that mutate no field are embedded as pure
  functions of the evaluator value; `run_` variants thread the evaluator state
  explicitly so that frame conditions can be stated.
-/

namespace Semiosis

/-- Embedding of `AgentState` (semiosis/agents/base.py): per-step snapshot with
query, output, trust, cost, budget and an opaque parameters mapping. -/
structure AgentState where
  query : String
  output : String
  trust : ℚ
  cost : ℚ
  budget : ℚ
  parameters : List (String × String)
deriving DecidableEq

/-- Embedding of `EvaluationResult` (semiosis/environments/base.py): fields
`success`, `score`, `details`, `error`, `metadata` — and no other. -/
structure EvaluationResult where
  success : Bool
  score : ℚ
  details : Option String
  error : Option String
  metadata : Option String
deriving DecidableEq

/-- A Python attribute value of an `EvaluationResult` instance. -/
inductive PyAttrVal where
  | boolVal : Bool → PyAttrVal
  | ratVal : ℚ → PyAttrVal
  | optStrVal : Option String → PyAttrVal
deriving DecidableEq

/-- Embedding of Python attribute lookup on an `EvaluationResult` instance:
the dataclass declares exactly the fields `success`, `score`, `details`,
`error`, `metadata`; looking up any other name yields `none`
(an `AttributeError` in Python). -/
def EvaluationResult.getattr (r : EvaluationResult) : String → Option PyAttrVal
  | "success" => Option.some (PyAttrVal.boolVal r.success)
  | "score" => Option.some (PyAttrVal.ratVal r.score)
  | "details" => Option.some (PyAttrVal.optStrVal r.details)
  | "error" => Option.some (PyAttrVal.optStrVal r.error)
  | "metadata" => Option.some (PyAttrVal.optStrVal r.metadata)
  | _ => Option.none

/-- Python truthiness of an attribute value (`if evaluation_result.correct:`). -/
def pyTruthy : PyAttrVal → Bool
  | PyAttrVal.boolVal b => b
  | PyAttrVal.ratVal q => decide (q ≠ 0)
  | PyAttrVal.optStrVal Option.none => false
  | PyAttrVal.optStrVal (Option.some s) => !s.isEmpty

/-- Embedding of `TrustConfig` (engine.py lines 17-37). -/
structure TrustConfig where
  update_function : ℚ → ℚ
  min_trust : ℚ
  max_trust : ℚ
  default_logprob : ℚ

/-- `TrustConfig()` with all defaults, after `__post_init__`:
`update_function = λ ll. ll * 10.0`, bounds `[0, 100]`, `default_logprob = -10`. -/
def defaultTrustConfig : TrustConfig :=
  { update_function := fun ll => ll * 10
    min_trust := 0
    max_trust := 100
    default_logprob := -10 }

/-- Embedding of `BudgetConfig` (engine.py lines 40-65). -/
structure BudgetConfig where
  cost_function : String → String → ℚ
  update_function : ℚ → ℚ → ℚ → ℚ
  initial_budget : ℚ
  min_budget : ℚ

/-- `BudgetConfig()` with all defaults, after `__post_init__`:
`cost_function = λ q r. len q + len r`,
`update_function = λ b c t. b - c + t * 0.1`, initial budget 100, floor 0. -/
def defaultBudgetConfig : BudgetConfig :=
  { cost_function := fun query response => (query.length : ℚ) + (response.length : ℚ)
    update_function := fun budget cost trust => budget - cost + trust * (1/10)
    initial_budget := 100
    min_budget := 0 }

/-- Embedding of the `SemioticEvaluator` state (engine.py lines 68-91):
two configs fixed at construction and the accumulated trace `agent_states`. -/
structure SemioticEvaluator where
  trust_config : TrustConfig
  budget_config : BudgetConfig
  agent_states : List AgentState

/-- Embedding of Python `str.split()` with no arguments: split on runs of
whitespace, discarding empty pieces. -/
def pySplitWhitespace (s : String) : List String :=
  (s.split fun c => c.isWhitespace).filter (fun t => !t.isEmpty)

/-- Embedding of `SemioticEvaluator.add_agent_state` (engine.py lines 93-100):
`self.agent_states.append(state)`. -/
def SemioticEvaluator.add_agent_state (e : SemioticEvaluator) (state : AgentState) :
    SemioticEvaluator :=
  { e with agent_states := e.agent_states ++ [state] }

/-- Embedding of `SemioticEvaluator.calculate_log_likelihood`
(engine.py lines 102-127): sum per-token logprobs of `target_sequence.split()`,
falling back to `trust_config.default_logprob` for missing tokens. -/
def SemioticEvaluator.calculate_log_likelihood (e : SemioticEvaluator)
    (token_probs : List (String × ℚ)) (target_sequence : String) : ℚ :=
  (pySplitWhitespace target_sequence).foldl
    (fun log_likelihood token =>
      log_likelihood + ((token_probs.lookup token).getD e.trust_config.default_logprob))
    0

/-- Embedding of `SemioticEvaluator.update_trust` (engine.py lines 129-160).
Line 146 reads `evaluation_result.correct`; attribute lookup on the
`EvaluationResult` dataclass is embedded by `EvaluationResult.getattr`, a
failed lookup being Python's `AttributeError`, embedded as `Except.error`.
On a successful lookup, the delta is `score * 2.0` for a truthy value and
`-1.0` otherwise, and the sum is clamped to `[min_trust, max_trust]`. -/
def SemioticEvaluator.update_trust (e : SemioticEvaluator) (current_trust : ℚ)
    (evaluation_result : EvaluationResult) : Except String ℚ :=
  match evaluation_result.getattr "correct" with
  | Option.some v =>
    let trust_delta : ℚ := if pyTruthy v then evaluation_result.score * 2 else -1
    let new_trust := current_trust + trust_delta
    Except.ok (max e.trust_config.min_trust (min new_trust e.trust_config.max_trust))
  | Option.none =>
    Except.error "AttributeError: EvaluationResult object has no attribute correct"

/-- Embedding of `SemioticEvaluator.update_budget` (engine.py lines 162-179):
apply `budget_config.update_function`, then clamp below at
`budget_config.min_budget`. -/
def SemioticEvaluator.update_budget (e : SemioticEvaluator) (current_budget : ℚ)
    (cost : ℚ) (trust : ℚ) : ℚ :=
  let new_budget := e.budget_config.update_function current_budget cost trust
  max e.budget_config.min_budget new_budget

/-- Embedding of `SemioticEvaluator.calculate_viability` (engine.py lines
181-206). The Python default `budget_threshold=None` is an explicit `Option`;
line 197 `budget_thresh = budget_threshold or self.budget_config.min_budget`
falls back to `min_budget` both for `None` and for a falsy `0.0`. -/
def SemioticEvaluator.calculate_viability (e : SemioticEvaluator)
    (trust_threshold : ℚ) (budget_threshold : Option ℚ) : ℚ :=
  if e.agent_states = [] then 0
  else
    let budget_thresh : ℚ :=
      match budget_threshold with
      | Option.none => e.budget_config.min_budget
      | Option.some b => if b = 0 then e.budget_config.min_budget else b
    let viable_states := e.agent_states.filter
      (fun state => decide (trust_threshold < state.trust ∧ budget_thresh < state.budget))
    (viable_states.length : ℚ) / (e.agent_states.length : ℚ)

/-- Embedding of Python `max` over a (nonempty at every call site) sequence of
rationals; the `[]` case is unreachable behind the emptiness guards. -/
def maxRat : List ℚ → ℚ
  | [] => 0
  | [x] => x
  | x :: y :: xs => max x (maxRat (y :: xs))

/-- Embedding of the `for _ in range(50)` loop of
`calculate_semantic_threshold` (engine.py lines 229-236): structural recursion
on the remaining iteration count, carrying `low` and `high`; returns the final
`low`. -/
def SemioticEvaluator.thresholdSearch (e : SemioticEvaluator) (target_viability : ℚ) :
    Nat → ℚ → ℚ → ℚ
  | 0, low, _ => low
  | Nat.succ n, low, high =>
    let mid := (low + high) / 2
    let mid_viability := e.calculate_viability mid Option.none
    if mid_viability ≤ target_viability then e.thresholdSearch target_viability n low mid
    else e.thresholdSearch target_viability n mid high

/-- Embedding of `SemioticEvaluator.calculate_semantic_threshold`
(engine.py lines 208-238): 0 on an empty trace; otherwise binary search with
target `0.5 * V(0)` over `[0, max trust]` for 50 iterations. -/
def SemioticEvaluator.calculate_semantic_threshold (e : SemioticEvaluator) : ℚ :=
  if e.agent_states = [] then 0
  else
    let max_viability := e.calculate_viability 0 Option.none
    let target_viability := (1/2) * max_viability
    let high := maxRat (e.agent_states.map (fun state => state.trust))
    e.thresholdSearch target_viability 50 0 high

/-- Embedding of `SemioticEvaluator._calculate_entropy` (engine.py lines
272-295), with `np.log2` passed in as `log2`: absolute values as unnormalized
weights, 0 when the weight sum is 0, otherwise Shannon entropy over the
positive normalized weights. -/
def calculate_entropy (log2 : ℚ → ℚ) (values : List ℚ) : ℚ :=
  if values = [] then 0
  else
    let values_abs := values.map abs
    let total := values_abs.sum
    if total = 0 then 0
    else
      let probs := (values_abs.map (fun v => v / total)).filter (fun p => decide (0 < p))
      Neg.neg ((probs.map (fun p => p * log2 p)).sum)

/-- Embedding of `SemioticEvaluator.calculate_mutual_information`
(engine.py lines 240-270), with `np.log2` and Python's
`hash(str(e)) % 1000` bucketing passed in as parameters; environment states
enter as their `str` images. Reads nothing from the evaluator. -/
def calculate_mutual_information (log2 : ℚ → ℚ) (hashFn : String → Nat)
    (agent_states : List AgentState) (environment_states : List String) : ℚ :=
  if agent_states.length ≠ environment_states.length ∨ agent_states = [] then 0
  else
    let agent_entropy :=
      calculate_entropy log2 (agent_states.map (fun state => state.trust))
    let env_entropy :=
      calculate_entropy log2 (environment_states.map (fun s => ((hashFn s % 1000 : Nat) : ℚ)))
    (agent_entropy + env_entropy) / 2

/-- Embedding of `SemioticEvaluator.get_performance_trajectory`
(engine.py lines 297-311): the trust, budget and cost sequences in trace
order ([] each when the trace is empty). -/
def SemioticEvaluator.get_performance_trajectory (e : SemioticEvaluator) :
    List ℚ × List ℚ × List ℚ :=
  if e.agent_states = [] then ([], [], [])
  else
    (e.agent_states.map (fun state => state.trust),
     e.agent_states.map (fun state => state.budget),
     e.agent_states.map (fun state => state.cost))

/-- Embedding of `extract_token_probabilities` (math_utils.py lines 14-35):
one `(token, logprob)` pair per token of `response.split()`, in order, looking
each token up in `logprobs_dict` with fallback `default_logprob`. -/
def extract_token_probabilities (response : String)
    (logprobs_dict : List (String × ℚ)) (default_logprob : ℚ) :
    List (String × ℚ) :=
  (pySplitWhitespace response).map
    (fun token => (token, (logprobs_dict.lookup token).getD default_logprob))

/-- Embedding of `calculate_perplexity` (math_utils.py lines 72-90), with
`np.exp` passed in as `exp`: 0 on an empty list, otherwise `exp` of the
negated average of the logprobs. -/
def calculate_perplexity (exp : ℚ → ℚ) (token_logprobs : List (String × ℚ)) : ℚ :=
  if token_logprobs = [] then 0
  else
    let logprobs := token_logprobs.map (fun p => p.2)
    let avg_logprob := logprobs.sum / (logprobs.length : ℚ)
    exp (-avg_logprob)

/-- State-passing form of `update_trust`: the method body assigns no field of
`self`, so the evaluator passes through unchanged. -/
def SemioticEvaluator.run_update_trust (e : SemioticEvaluator) (current_trust : ℚ)
    (evaluation_result : EvaluationResult) : Except String ℚ × SemioticEvaluator :=
  (e.update_trust current_trust evaluation_result, e)

/-- State-passing form of `update_budget`: no field of `self` is assigned. -/
def SemioticEvaluator.run_update_budget (e : SemioticEvaluator) (current_budget : ℚ)
    (cost : ℚ) (trust : ℚ) : ℚ × SemioticEvaluator :=
  (e.update_budget current_budget cost trust, e)

/-- State-passing form of `calculate_viability`: the method only reads
`self.agent_states` (list comprehension) and `self.budget_config`. -/
def SemioticEvaluator.run_calculate_viability (e : SemioticEvaluator)
    (trust_threshold : ℚ) (budget_threshold : Option ℚ) : ℚ × SemioticEvaluator :=
  (e.calculate_viability trust_threshold budget_threshold, e)

/-- State-passing form of `calculate_semantic_threshold`: only local variables
`low`, `high`, `mid` are assigned; `self` is read, never written. -/
def SemioticEvaluator.run_calculate_semantic_threshold (e : SemioticEvaluator) :
    ℚ × SemioticEvaluator :=
  (e.calculate_semantic_threshold, e)

/-- State-passing form of `calculate_mutual_information`: the method reads
only its arguments, not `self`. -/
def SemioticEvaluator.run_calculate_mutual_information (e : SemioticEvaluator)
    (log2 : ℚ → ℚ) (hashFn : String → Nat) (agent_states : List AgentState)
    (environment_states : List String) : ℚ × SemioticEvaluator :=
  (calculate_mutual_information log2 hashFn agent_states environment_states, e)

/-- State-passing form of `get_performance_trajectory`: builds fresh lists
from `self.agent_states` without assigning any field. -/
def SemioticEvaluator.run_get_performance_trajectory (e : SemioticEvaluator) :
    (List ℚ × List ℚ × List ℚ) × SemioticEvaluator :=
  (e.get_performance_trajectory, e)

/-- State-passing form of `calculate_log_likelihood`: only the local
accumulator is assigned; `self.trust_config` is read. -/
def SemioticEvaluator.run_calculate_log_likelihood (e : SemioticEvaluator)
    (token_probs : List (String × ℚ)) (target_sequence : String) :
    ℚ × SemioticEvaluator :=
  (e.calculate_log_likelihood token_probs target_sequence, e)

/-- The five-state trace of `test_viability_calculation_basic`
(tests/test_sit_engine.py lines 17-23), with `(trust, budget)` pairs
`(0.9, 0.05), (0.7, 0.03), (0.5, 0.01), (0.3, 0.0), (0.1, -0.01)`. -/
def exampleStates : List AgentState :=
  [ { query := "q1", output := "a1", trust := 9/10, cost := 1/1000,
      budget := 5/100, parameters := [] },
    { query := "q2", output := "a2", trust := 7/10, cost := 2/1000,
      budget := 3/100, parameters := [] },
    { query := "q3", output := "a3", trust := 5/10, cost := 1/1000,
      budget := 1/100, parameters := [] },
    { query := "q4", output := "a4", trust := 3/10, cost := 3/1000,
      budget := 0, parameters := [] },
    { query := "q5", output := "a5", trust := 1/10, cost := 2/1000,
      budget := -1/100, parameters := [] } ]

/-- `SemioticEvaluator()` with default configs and the five-state example
trace appended. -/
def exampleEvaluator : SemioticEvaluator :=
  { trust_config := defaultTrustConfig
    budget_config := defaultBudgetConfig
    agent_states := exampleStates }

/-- `SemioticEvaluator()` with default configs and an empty trace. -/
def emptyEvaluator : SemioticEvaluator :=
  { trust_config := defaultTrustConfig
    budget_config := defaultBudgetConfig
    agent_states := [] }

/-- An evaluator whose budget floor is nonzero (`min_budget = 1/100`), with a
single state whose budget lies strictly between 0 and the floor. -/
def nonzeroFloorEvaluator : SemioticEvaluator :=
  { trust_config := defaultTrustConfig
    budget_config := { defaultBudgetConfig with min_budget := 1/100 }
    agent_states :=
      [ { query := "q", output := "a", trust := 1, cost := 0,
          budget := 1/200, parameters := [] } ] }

/-- One binary-search step as the claim words it: halve towards the midpoint,
keeping the lower half when viability at the midpoint is at most the target. -/
def claimSearchStep (e : SemioticEvaluator) (target : ℚ) (lh : ℚ × ℚ) : ℚ × ℚ :=
  let mid := (lh.1 + lh.2) / 2
  if e.calculate_viability mid Option.none ≤ target then (lh.1, mid) else (mid, lh.2)

/-- The semantic-threshold computation exactly as claim C2 words it: 0 on an
empty trace; otherwise `max_viability = V(0)` via `calculate_viability` with
trust threshold 0, target half of that, exactly 50 iterated binary-search
steps on `[0, max trust over all recorded states]`, returning the final lower
bound. Stated from the claim for comparison with
`calculate_semantic_threshold`, which is stated from the source. -/
def claimSemanticThreshold (e : SemioticEvaluator) : ℚ :=
  if e.agent_states = [] then 0
  else
    let target := (1/2) * e.calculate_viability 0 Option.none
    let high := maxRat (e.agent_states.map (fun state => state.trust))
    ((claimSearchStep e target)^[50] (0, high)).1

lemma thresholdSearch_eq_iterate (e : SemioticEvaluator) (t : ℚ) :
    ∀ (n : Nat) (low high : ℚ),
      e.thresholdSearch t n low high = ((claimSearchStep e t)^[n] (low, high)).1 := by
  intro n
  induction n with
  | zero => intro low high; rfl
  | succ n ih =>
    intro low high
    rw [Function.iterate_succ_apply]
    show (if e.calculate_viability ((low + high) / 2) Option.none ≤ t
          then e.thresholdSearch t n low ((low + high) / 2)
          else e.thresholdSearch t n ((low + high) / 2) high) = _
    have hstep : claimSearchStep e t (low, high) =
        if e.calculate_viability ((low + high) / 2) Option.none ≤ t
        then (low, (low + high) / 2) else ((low + high) / 2, high) := rfl
    rw [hstep]
    by_cases hc : e.calculate_viability ((low + high) / 2) Option.none ≤ t
    · rw [if_pos hc, if_pos hc, ih]
    · rw [if_neg hc, if_neg hc, ih]

/-- C1. `calculate_viability` with the budget threshold omitted returns, on a
non-empty trace, the fraction of recorded states with
`state.trust > trust_threshold` and `state.budget > budget_config.min_budget`;
it returns 0 on an empty trace; and on the five-state example trace with
trust threshold `0.6 = 3/5` it returns `0.4 = 2/5`. -/
theorem calculate_viability_default_spec :
    (∀ (e : SemioticEvaluator) (η : ℚ), e.agent_states ≠ [] →
      e.calculate_viability η Option.none =
        (e.agent_states.countP
          (fun s => decide (s.trust > η ∧ s.budget > e.budget_config.min_budget)) : ℚ) /
          (e.agent_states.length : ℚ))
    ∧ (∀ (e : SemioticEvaluator) (η : ℚ), e.agent_states = [] →
        e.calculate_viability η Option.none = 0)
    ∧ exampleEvaluator.calculate_viability (3/5) Option.none = 2/5 := by
  refine ⟨?_, ?_, ?_⟩
  · intro e η h
    unfold SemioticEvaluator.calculate_viability
    rw [if_neg h]
    simp [List.countP_eq_length_filter]
  · intro e η h
    simp [SemioticEvaluator.calculate_viability, h]
  · norm_num [SemioticEvaluator.calculate_viability, exampleEvaluator, exampleStates,
      defaultBudgetConfig, List.filter]
    exact List.cons_ne_nil _ _

theorem calculate_viability_default_spec_witness :
    exampleEvaluator.calculate_viability (3/5) Option.none =
      (exampleEvaluator.agent_states.countP
        (fun s => decide (s.trust > 3/5 ∧
          s.budget > exampleEvaluator.budget_config.min_budget)) : ℚ) /
        (exampleEvaluator.agent_states.length : ℚ) :=
  calculate_viability_default_spec.1 exampleEvaluator (3/5)
    (by simp [exampleEvaluator, exampleStates])

/-- C2. `calculate_semantic_threshold` computes exactly what the claim
describes: 0 on an empty trace, else a 50-iteration binary search below
target `0.5 * V(0)` over `[0, max trust]` returning the final lower bound
(formalised by `claimSemanticThreshold`, written from the claim). -/
theorem calculate_semantic_threshold_spec :
    (∀ e : SemioticEvaluator, e.calculate_semantic_threshold = claimSemanticThreshold e)
    ∧ (∀ e : SemioticEvaluator, e.agent_states = [] →
        e.calculate_semantic_threshold = 0) := by
  constructor
  · intro e
    unfold SemioticEvaluator.calculate_semantic_threshold claimSemanticThreshold
    by_cases he : e.agent_states = []
    · rw [if_pos he, if_pos he]
    · rw [if_neg he, if_neg he]
      exact thresholdSearch_eq_iterate e _ 50 0 _
  · intro e he
    simp [SemioticEvaluator.calculate_semantic_threshold, he]

theorem calculate_semantic_threshold_spec_witness :
    emptyEvaluator.calculate_semantic_threshold = 0 :=
  calculate_semantic_threshold_spec.2 emptyEvaluator rfl

/-- C3. Counter-evidence for the claimed trust-update arithmetic: on the very
input used by `test_trust_update_mechanism` (current trust 5.0 and
`EvaluationResult(success=True, score=0.9, details=...)`), `update_trust` does
not return the claimed `clamp(5.0 + 0.9 * 2.0) = 6.8` — it raises
`AttributeError`, because line 146 of engine.py reads
`evaluation_result.correct` and the dataclass has no such attribute. -/
theorem update_trust_test_input_raises :
    exampleEvaluator.update_trust 5
      { success := true, score := 9/10, details := Option.some "Good response",
        error := Option.none, metadata := Option.none } =
      Except.error "AttributeError: EvaluationResult object has no attribute correct" :=
  rfl

/-- C4. `update_trust` is not total over its documented input domain: for
every evaluator, current trust and `EvaluationResult`, the attribute lookup
`evaluation_result.correct` fails, so the method raises `AttributeError`
instead of returning a value. -/
theorem update_trust_never_returns :
    ∀ (e : SemioticEvaluator) (t : ℚ) (r : EvaluationResult),
      e.update_trust t r =
        Except.error "AttributeError: EvaluationResult object has no attribute correct" :=
  fun _ _ _ => rfl

/-- C5. Viability is non-increasing in the trust threshold: for a fixed trace
and a fixed (optional) budget threshold, `η1 ≤ η2` implies
`V(η2) ≤ V(η1)`. -/
theorem calculate_viability_antitone (e : SemioticEvaluator) (bt : Option ℚ)
    (η1 η2 : ℚ) (h : η1 ≤ η2) :
    e.calculate_viability η2 bt ≤ e.calculate_viability η1 bt := by
  unfold SemioticEvaluator.calculate_viability
  by_cases he : e.agent_states = []
  · simp [he]
  · rw [if_neg he, if_neg he]
    have hn : (0 : ℚ) < (e.agent_states.length : ℚ) := by
      exact_mod_cast List.length_pos.mpr he
    apply div_le_div_of_nonneg_right ?_ hn.le
    · norm_cast
      rw [← List.countP_eq_length_filter, ← List.countP_eq_length_filter]
      apply List.countP_mono_left
      intro s _ hp
      simp only [decide_eq_true_eq] at hp ⊢
      exact ⟨lt_of_le_of_lt h hp.1, hp.2⟩

theorem calculate_viability_antitone_witness :
    exampleEvaluator.calculate_viability 1 Option.none ≤
      exampleEvaluator.calculate_viability 0 Option.none :=
  calculate_viability_antitone exampleEvaluator Option.none 0 1 (by norm_num)

/-- C6. `update_budget` returns
`max(budget_config.min_budget, budget_config.update_function(b, c, t))` —
clamped below, never above — and with the default configuration,
`update_budget(10.0, cost=1.0, trust=5.0) = 9.5 = 19/2`. -/
theorem update_budget_spec :
    (∀ (e : SemioticEvaluator) (b c t : ℚ),
      e.update_budget b c t =
        max e.budget_config.min_budget (e.budget_config.update_function b c t))
    ∧ emptyEvaluator.update_budget 10 1 5 = 19/2 := by
  refine ⟨fun _ _ _ _ => rfl, ?_⟩
  norm_num [SemioticEvaluator.update_budget, emptyEvaluator, defaultBudgetConfig]

/-- C7. The listed query methods pass the evaluator state through unchanged
(their bodies assign no field of `self`), while `add_agent_state` appends
exactly one state at the end of the trace and leaves both configs intact. -/
theorem engine_frame_conditions :
    (∀ (e : SemioticEvaluator) (t : ℚ) (r : EvaluationResult),
      (e.run_update_trust t r).2 = e)
    ∧ (∀ (e : SemioticEvaluator) (b c t : ℚ), (e.run_update_budget b c t).2 = e)
    ∧ (∀ (e : SemioticEvaluator) (η : ℚ) (bt : Option ℚ),
        (e.run_calculate_viability η bt).2 = e)
    ∧ (∀ e : SemioticEvaluator, e.run_calculate_semantic_threshold.2 = e)
    ∧ (∀ (e : SemioticEvaluator) (lg : ℚ → ℚ) (hf : String → Nat)
        (sts : List AgentState) (envs : List String),
        (e.run_calculate_mutual_information lg hf sts envs).2 = e)
    ∧ (∀ e : SemioticEvaluator, e.run_get_performance_trajectory.2 = e)
    ∧ (∀ (e : SemioticEvaluator) (tp : List (String × ℚ)) (ts : String),
        (e.run_calculate_log_likelihood tp ts).2 = e)
    ∧ (∀ (e : SemioticEvaluator) (s : AgentState),
        (e.add_agent_state s).agent_states = e.agent_states ++ [s]
        ∧ (e.add_agent_state s).trust_config = e.trust_config
        ∧ (e.add_agent_state s).budget_config = e.budget_config) :=
  ⟨fun _ _ _ => rfl, fun _ _ _ _ => rfl, fun _ _ _ => rfl, fun _ => rfl,
   fun _ _ _ _ _ => rfl, fun _ => rfl, fun _ _ _ => rfl,
   fun _ _ => ⟨rfl, rfl, rfl⟩⟩

/-- C8. `calculate_perplexity` returns `exp` of the negated mean of the
logprobs on a non-empty list, and 0 on the empty list. -/
theorem calculate_perplexity_spec :
    (∀ (exp : ℚ → ℚ) (l : List (String × ℚ)), l ≠ [] →
      calculate_perplexity exp l = exp (-((l.map Prod.snd).sum / (l.length : ℚ))))
    ∧ (∀ exp : ℚ → ℚ, calculate_perplexity exp [] = 0) := by
  constructor
  · intro exp l h
    simp [calculate_perplexity, h]
  · intro exp
    rfl

theorem calculate_perplexity_spec_witness :
    calculate_perplexity id [("a", (-2 : ℚ))] =
      id (-(([("a", (-2 : ℚ))].map Prod.snd).sum /
        (([("a", (-2 : ℚ))] : List (String × ℚ)).length : ℚ))) :=
  calculate_perplexity_spec.1 id [("a", (-2 : ℚ))] (by simp)

/-- C9. With an empty logprobs map, `extract_token_probabilities` yields one
`(token, default_logprob)` pair per whitespace-delimited token of the
response, in order of appearance. -/
theorem extract_token_probabilities_empty_map :
    ∀ (response : String) (d : ℚ),
      extract_token_probabilities response [] d =
        (pySplitWhitespace response).map (fun token => (token, d)) := by
  intro r d
  unfold extract_token_probabilities
  simp [List.lookup]

/-- C10. Supplying `budget_threshold = 0.0` explicitly behaves identically to
omitting it: the falsy fallback of line 197 substitutes
`budget_config.min_budget` in both cases — concretely, with
`min_budget = 1/100` and a single state of budget `1/200 ∈ (0, 1/100)`,
viability at trust threshold 0 is 0, not the 1 that an honored zero threshold
would give. -/
theorem calculate_viability_falsy_zero :
    (∀ (e : SemioticEvaluator) (η : ℚ),
      e.calculate_viability η (Option.some 0) = e.calculate_viability η Option.none)
    ∧ nonzeroFloorEvaluator.calculate_viability 0 (Option.some 0) = 0 := by
  constructor
  · intro e η
    simp [SemioticEvaluator.calculate_viability]
  · norm_num [SemioticEvaluator.calculate_viability, nonzeroFloorEvaluator,
      defaultBudgetConfig, List.filter]

end Semiosis
